import Mathlib

/-!
Shallow embedding of the visions-vertex pipeline code.

The embedding covers the two source files the claims are about:
`src/app/agent.py` (GCS provisioning and the image-generation tool) and
`src/app/agent_engine_app.py` (the synchronous query bridge and operation
registration).  External effects (Vertex AI model calls, GCS network calls,
session services) are modelled by explicit environments that say, for each
external step, whether it succeeds or raises, and by explicit world states
(the set of existing buckets, the keyed session state, the live sessions).
Python exceptions are modelled with Except; a try/except block becomes a
match on the result of the fallible computation.
-/

namespace VisionsVertex

/-- agent.py: project_id is hardcoded in the source. -/
def project_id : String := "sandbox-456821"

/-- agent.py: VISION_BUCKET_NAME is built from the project id. -/
def VISION_BUCKET_NAME : String := project_id ++ "-oracle-visions"

/-- Opaque image payload bytes (images[0]._image_bytes in the source). -/
abbrev ImageBytes := String

/-- The keyed session state store written by tools (tool_context.state). -/
abbrev ToolState := String → Option String

/-- The empty session state. -/
def emptyState : ToolState := fun _ => none

/-- Python dict assignment on the session state store. -/
def stateSet (s : ToolState) (k v : String) : ToolState :=
  fun k' => if k' = k then some v else s k'

/-- The dict returned by generate_vision_image:
either status "success" with a url, or status "error" with a message. -/
structure ToolResponse where
  status : String
  url : Option String
  message : Option String
deriving Repr, DecidableEq

/-- The error-status dict built in generate_vision_image. -/
def errResp (e : String) : ToolResponse :=
  { status := "error", url := none, message := some e }

/-- External operations attempted by generate_vision_image, in order.
makePublic is the operation the spec talks about; it is listed so that
its absence from every trace is expressible. -/
inductive GcsOp where
  | loadModel
  | generateImages
  | clientInit
  | uploadBlob
  | makePublic
  | stateWrite
deriving Repr, DecidableEq

/-- Environment of generate_vision_image: the outcome of each external
step (ok or raised exception) and the uuid used for the blob name. -/
structure VisionEnv where
  fromPretrained : Except String Unit
  generateImages : Except String (List ImageBytes)
  storageClient : Except String Unit
  uploadFromString : Except String Unit
  stateWrite : Except String Unit
  blobUuid : String

/-- The blob name generated in the source: visions/{uuid4()}.png -/
def blobNameOf (env : VisionEnv) : String :=
  "visions/" ++ env.blobUuid ++ ".png"

/-- The public URL constructed in the source from bucket and object name. -/
def publicUrlOf (env : VisionEnv) : String :=
  "https://storage.googleapis.com/" ++ VISION_BUCKET_NAME ++ "/" ++ blobNameOf env

/-- agent.py, generate_vision_image: loads the model, generates one image,
uploads it to GCS, constructs the public URL directly and stores it in the
session state.  The whole body is wrapped in try/except returning an
error-status dict, so no exception escapes.  Returns the response dict,
the session state after the call, and the trace of attempted operations. -/
def generate_vision_image (env : VisionEnv) (vision_description : String)
    (state : ToolState) : ToolResponse × ToolState × List GcsOp :=
  match env.fromPretrained with
  | .error e => (errResp e, state, [GcsOp.loadModel])
  | .ok _ =>
    match env.generateImages with
    | .error e => (errResp e, state, [GcsOp.loadModel, GcsOp.generateImages])
    | .ok images =>
      match images with
      | [] =>
        (errResp "No image was generated.", state,
         [GcsOp.loadModel, GcsOp.generateImages])
      | _imageBytes :: _ =>
        match env.storageClient with
        | .error e =>
          (errResp e, state,
           [GcsOp.loadModel, GcsOp.generateImages, GcsOp.clientInit])
        | .ok _ =>
          match env.uploadFromString with
          | .error e =>
            (errResp e, state,
             [GcsOp.loadModel, GcsOp.generateImages, GcsOp.clientInit,
              GcsOp.uploadBlob])
          | .ok _ =>
            match env.stateWrite with
            | .error e =>
              (errResp e, state,
               [GcsOp.loadModel, GcsOp.generateImages, GcsOp.clientInit,
                GcsOp.uploadBlob, GcsOp.stateWrite])
            | .ok _ =>
              ({ status := "success", url := some (publicUrlOf env),
                 message := none },
               stateSet state "generated_image_url" (publicUrlOf env),
               [GcsOp.loadModel, GcsOp.generateImages, GcsOp.clientInit,
                GcsOp.uploadBlob, GcsOp.stateWrite])

/-- An environment in which every external step of the tool succeeds. -/
def okVisionEnv : VisionEnv :=
  { fromPretrained := .ok ()
    generateImages := .ok ["png-bytes"]
    storageClient := .ok ()
    uploadFromString := .ok ()
    stateWrite := .ok ()
    blobUuid := "123e4567-e89b-12d3-a456-426614174000" }

/-- An environment in which the image model returns zero images. -/
def zeroImagesEnv : VisionEnv :=
  { okVisionEnv with generateImages := .ok [] }

/-! ## initialize_gcs (agent.py) -/

/-- External GCS world: the existing buckets with their regions, and the
lifecycle rules (bucket name, delete-after age in days) that have been
applied server-side. -/
structure GcsWorld where
  buckets : List (String × String)
  lifecycleRules : List (String × Nat)
deriving Repr, DecidableEq

/-- Whether a bucket of the given name exists in the world. -/
def bucketExists (w : GcsWorld) (name : String) : Bool :=
  w.buckets.any (fun b => b.1 = name)

/-- Failure injection for initialize_gcs: for each external call, none
means the call succeeds and some e means it raises exception e. -/
structure GcsEnv where
  clientInitFails : Option String
  existsCheckFails : Option String
  createFails : Option String
  patchFails : Option String
deriving Repr, DecidableEq

/-- The environment in which every external GCS call succeeds. -/
def okGcsEnv : GcsEnv :=
  { clientInitFails := none, existsCheckFails := none,
    createFails := none, patchFails := none }

/-- The try-block body of initialize_gcs: client construction, existence
check, creation in the configured region, then the 7-day deletion
lifecycle rule patch.  Returns the world after whatever mutations landed,
together with the exception raised inside the block, if any. -/
def initialize_gcs_run (loc : String) (env : GcsEnv) (w : GcsWorld) :
    GcsWorld × Option String :=
  match env.clientInitFails with
  | some e => (w, some e)
  | none =>
    match env.existsCheckFails with
    | some e => (w, some e)
    | none =>
      if bucketExists w VISION_BUCKET_NAME then
        (w, none)
      else
        match env.createFails with
        | some e => (w, some e)
        | none =>
          let w1 : GcsWorld :=
            { w with buckets := (VISION_BUCKET_NAME, loc) :: w.buckets }
          match env.patchFails with
          | some e => (w1, some e)
          | none =>
            ({ w1 with
               lifecycleRules := (VISION_BUCKET_NAME, 7) :: w1.lifecycleRules },
             none)

/-- agent.py, initialize_gcs: the try block above wrapped in the except
clause that logs any exception and returns normally, so the caller only
ever sees the (possibly partially mutated) world. -/
def initialize_gcs (loc : String) (env : GcsEnv) (w : GcsWorld) : GcsWorld :=
  match initialize_gcs_run loc env w with
  | (w', _) => w'

/-! ## The synchronous query bridge (agent_engine_app.py) -/

/-- One part of the content of an event; text is optional. -/
structure EvPart where
  text : Option String
deriving Repr, DecidableEq

/-- The content of an event: a list of parts (None folded into the empty
list, which Python treats the same way under truthiness). -/
structure EvContent where
  parts : List EvPart
deriving Repr, DecidableEq

/-- One streamed event of the asynchronous run. -/
structure Event where
  content : Option EvContent
deriving Repr, DecidableEq

/-- The folding step over the parts of one event: text is appended when it is
present and non-empty (Python truthiness of part.text). -/
def partsFold (acc : String) (parts : List EvPart) : String :=
  parts.foldl
    (fun a p =>
      match p.text with
      | some t => if t.isEmpty then a else a ++ t
      | none => a)
    acc

/-- The folding step over one event: skipped when content is None or its
parts list is empty (Python truthiness of event.content.parts). -/
def eventFold (acc : String) (ev : Event) : String :=
  match ev.content with
  | none => acc
  | some c => if c.parts.isEmpty then acc else partsFold acc c.parts

/-- The accumulation loop of _run_async over the streamed events. -/
def accumulateText (events : List Event) : String :=
  events.foldl eventFold ""

/-- Live sessions of the session service, as (user_id, session_id). -/
abbrev SessionWorld := List (String × String)

/-- async_delete_session: removes the given session from the service. -/
def removeSession (w : SessionWorld) (user sid : String) : SessionWorld :=
  w.filter (fun p => !(p.1 = user && p.2 = sid))

/-- Steps the bridge performs, for ordering properties. -/
inductive BridgeOp where
  | createSession (user sid : String)
  | processEvent (ev : Event)
  | deleteSession (user sid : String)
deriving Repr, DecidableEq

/-- Environment of one query call: the session id the session service
hands out, the events the runner streams before finishing, and the
exception (if any) the asynchronous run raises after those events. -/
structure QueryEnv where
  sessionId : String
  events : List Event
  runError : Option String
deriving Repr, DecidableEq

/-- The user id hardcoded in query for this stateless call. -/
def default_user : String := "default_user"

/-- agent_engine_app.py, _run_async: creates a session, accumulates the
text of the streamed events inside try, and deletes the session in the
finally block, on the normal path and on the exception path alike.
Returns the outcome (response text or propagated exception), the session
world after the call, and the trace of bridge steps in order. -/
def run_async (env : QueryEnv) (sessions : SessionWorld) :
    Except String String × SessionWorld × List BridgeOp :=
  let created : SessionWorld := (default_user, env.sessionId) :: sessions
  let afterDelete := removeSession created default_user env.sessionId
  let trace :=
    BridgeOp.createSession default_user env.sessionId ::
      (env.events.map BridgeOp.processEvent ++
        [BridgeOp.deleteSession default_user env.sessionId])
  match env.runError with
  | some e => (.error e, afterDelete, trace)
  | none => (.ok (accumulateText env.events), afterDelete, trace)

/-- The result container shared between the worker thread and the caller. -/
structure ResultContainer where
  data : Option String
  error : Option String
deriving Repr, DecidableEq

/-- agent_engine_app.py, run_in_thread: runs the asynchronous query on a
fresh event loop and stores either its value or the caught exception in
the container. -/
def run_in_thread (env : QueryEnv) (sessions : SessionWorld) :
    ResultContainer × SessionWorld × List BridgeOp :=
  match run_async env sessions with
  | (.ok d, s', tr) => ({ data := some d, error := none }, s', tr)
  | (.error e, s', tr) => ({ data := none, error := some e }, s', tr)

/-- agent_engine_app.py, AgentEngineApp.query: starts the worker thread,
joins it, re-raises the captured exception if there is one, and
otherwise returns the accumulated data (empty string when it is None). -/
def query (env : QueryEnv) (sessions : SessionWorld) (input : String) :
    Except String String × SessionWorld × List BridgeOp :=
  match run_in_thread env sessions with
  | (container, s', tr) =>
    match container.error with
    | some e => (.error e, s', tr)
    | none => (.ok (container.data.getD ""), s', tr)

/-! ## register_operations (agent_engine_app.py) -/

/-- The operation registration dict: mode name to operation names. -/
abbrev OpsDict := String → Option (List String)

/-- Python dict assignment on the registration dict. -/
def opsSet (d : OpsDict) (k : String) (v : List String) : OpsDict :=
  fun k' => if k' = k then some v else d k'

/-- Python del on the registration dict. -/
def opsDel (d : OpsDict) (k : String) : OpsDict :=
  fun k' => if k' = k then none else d k'

/-- register_operations, first statement: if "" not in ops, ops[""] = []. -/
def ensureDefaultMode (ops : OpsDict) : OpsDict :=
  if (ops "").isSome then ops else opsSet ops "" []

/-- register_operations, second statement: if "query" not in ops[""],
ops[""].append("query"). -/
def ensureQueryRegistered (ops : OpsDict) : OpsDict :=
  let cur := (ops "").getD []
  if cur.contains "query" then ops else opsSet ops "" (cur ++ ["query"])

/-- register_operations, deletion statements: if "async" in ops, del
ops["async"]; if "async_stream" in ops, del ops["async_stream"]. -/
def dropAsyncModes (ops : OpsDict) : OpsDict :=
  let o1 := if (ops "async").isSome then opsDel ops "async" else ops
  if (o1 "async_stream").isSome then opsDel o1 "async_stream" else o1

/-- agent_engine_app.py, AgentEngineApp.register_operations: takes the
dict returned by the superclass, makes sure "query" is registered under
the default mode "", and deletes the "async" and "async_stream" modes. -/
def register_operations (ops : OpsDict) : OpsDict :=
  dropAsyncModes (ensureQueryRegistered (ensureDefaultMode ops))

/-! ## Spec-side description of the text accumulation -/

/-- Concatenation, in order, of a list of textual fragments. -/
def concatTexts : List String → String
  | [] => ""
  | t :: ts => t ++ concatTexts ts

/-- The textual fragments carried by one event, in part order. -/
def eventTexts (ev : Event) : List String :=
  match ev.content with
  | none => []
  | some c => c.parts.filterMap EvPart.text

/-- All textual fragments of a stream of events, in emission order. -/
def textFragments : List Event → List String
  | [] => []
  | ev :: evs => eventTexts ev ++ textFragments evs

/-! ## Concrete inputs used to exercise the definitions -/

/-- An environment in which the image model call itself raises. -/
def genFailEnv : VisionEnv :=
  { okVisionEnv with generateImages := .error "image model unavailable" }

/-- An environment in which the GCS upload raises. -/
def uploadFailEnv : VisionEnv :=
  { okVisionEnv with uploadFromString := .error "upload failed" }

/-- A query environment whose asynchronous run raises. -/
def errQueryEnv : QueryEnv :=
  { sessionId := "s-1", events := [], runError := some "pipeline crashed" }

/-- A small stream with non-textual events, empty parts and empty text. -/
def demoEvents : List Event :=
  [{ content := some { parts := [{ text := some "Hello " }, { text := none }] } },
   { content := none },
   { content := some { parts := [] } },
   { content := some { parts := [{ text := some "" }, { text := some "world" }] } }]

/-- A query environment whose asynchronous run finishes normally. -/
def demoQueryEnv : QueryEnv :=
  { sessionId := "s-2", events := demoEvents, runError := none }

/-- A GCS world with no buckets at all. -/
def emptyGcsWorld : GcsWorld := { buckets := [], lifecycleRules := [] }

/-- A GCS environment in which only the lifecycle patch raises. -/
def patchFailGcsEnv : GcsEnv :=
  { okGcsEnv with patchFails := some "policy denies lifecycle patch" }

/-- A registration dict as the AdkApp superclass returns it: besides the
default mode and the two deleted asynchronous modes it advertises a
further streaming mode named stream. -/
def superOpsDict : OpsDict := fun k =>
  if k = "" then some ["get_session", "list_sessions"]
  else if k = "async" then some ["async_query"]
  else if k = "async_stream" then some ["async_stream_query"]
  else if k = "stream" then some ["stream_query", "streaming_agent_run_with_events"]
  else none

/-! ## Helper lemmas -/

/-- When the returned status is "success", generate_vision_image took the
full success path: it returned the constructed public URL, wrote it under
the key generated_image_url, and attempted exactly the five external
steps in order. -/
theorem gvi_success_eq (env : VisionEnv) (d : String) (s : ToolState)
    (h : (generate_vision_image env d s).1.status = "success") :
    generate_vision_image env d s =
      ({ status := "success", url := some (publicUrlOf env), message := none },
       stateSet s "generated_image_url" (publicUrlOf env),
       [GcsOp.loadModel, GcsOp.generateImages, GcsOp.clientInit,
        GcsOp.uploadBlob, GcsOp.stateWrite]) := by
  obtain ⟨fp, gi, sc, up, sw, uid⟩ := env
  rcases fp with e | u
  · simp [generate_vision_image, errResp] at h
  rcases gi with e | images
  · simp [generate_vision_image, errResp] at h
  rcases images with _ | ⟨b, rest⟩
  · simp [generate_vision_image, errResp] at h
  rcases sc with e | u2
  · simp [generate_vision_image, errResp] at h
  rcases up with e | u3
  · simp [generate_vision_image, errResp] at h
  rcases sw with e | u4
  · simp [generate_vision_image, errResp] at h
  · rfl

/-- When the returned status is "error", the session state is returned
untouched. -/
theorem gvi_error_state (env : VisionEnv) (d : String) (s : ToolState)
    (h : (generate_vision_image env d s).1.status = "error") :
    (generate_vision_image env d s).2.1 = s := by
  obtain ⟨fp, gi, sc, up, sw, uid⟩ := env
  rcases fp with e | u
  · rfl
  rcases gi with e | images
  · rfl
  rcases images with _ | ⟨b, rest⟩
  · rfl
  rcases sc with e | u2
  · rfl
  rcases up with e | u3
  · rfl
  rcases sw with e | u4
  · rfl
  · simp [generate_vision_image, errResp] at h

/-- generate_vision_image always returns a status dict: either success or
error, never a propagated exception. -/
theorem gvi_status_total (env : VisionEnv) (d : String) (s : ToolState) :
    (generate_vision_image env d s).1.status = "success" ∨
    (generate_vision_image env d s).1.status = "error" := by
  obtain ⟨fp, gi, sc, up, sw, uid⟩ := env
  rcases fp with e | u
  · exact Or.inr rfl
  rcases gi with e | images
  · exact Or.inr rfl
  rcases images with _ | ⟨b, rest⟩
  · exact Or.inr rfl
  rcases sc with e | u2
  · exact Or.inr rfl
  rcases up with e | u3
  · exact Or.inr rfl
  rcases sw with e | u4
  · exact Or.inr rfl
  · exact Or.inl rfl

/-- No run of generate_vision_image ever attempts a make-public
operation. -/
theorem gvi_no_makePublic (env : VisionEnv) (d : String) (s : ToolState) :
    GcsOp.makePublic ∉ (generate_vision_image env d s).2.2 := by
  obtain ⟨fp, gi, sc, up, sw, uid⟩ := env
  rcases fp with e | u
  · simp [generate_vision_image, errResp]
  rcases gi with e | images
  · simp [generate_vision_image, errResp]
  rcases images with _ | ⟨b, rest⟩
  · simp [generate_vision_image, errResp]
  rcases sc with e | u2
  · simp [generate_vision_image, errResp]
  rcases up with e | u3
  · simp [generate_vision_image, errResp]
  rcases sw with e | u4
  · simp [generate_vision_image, errResp]
  · simp [generate_vision_image, errResp]

theorem concatTexts_append (xs ys : List String) :
    concatTexts (xs ++ ys) = concatTexts xs ++ concatTexts ys := by
  induction xs with
  | nil => simp [concatTexts, String.empty_append]
  | cons x xs ih => simp [concatTexts, ih, String.append_assoc]

theorem partsFold_eq (ps : List EvPart) (a : String) :
    partsFold a ps = a ++ concatTexts (ps.filterMap EvPart.text) := by
  induction ps generalizing a with
  | nil => simp [partsFold, concatTexts, String.append_empty]
  | cons p ps ih =>
    have hstep : partsFold a (p :: ps) =
        partsFold (match p.text with
          | some t => if t.isEmpty then a else a ++ t
          | none => a) ps := rfl
    rcases hp : p.text with _ | t
    · rw [hstep, hp]
      simp only [List.filterMap_cons, hp]
      exact ih a
    · rw [hstep, hp]
      simp only [List.filterMap_cons, hp]
      by_cases ht : t.isEmpty
      · have ht' : t = "" := by rwa [String.isEmpty_iff] at ht
        subst ht'
        rw [if_pos ht, ih a]
        simp [concatTexts, String.empty_append]
      · rw [if_neg ht, ih (a ++ t)]
        simp [concatTexts, String.append_assoc]

theorem eventFold_eq (ev : Event) (a : String) :
    eventFold a ev = a ++ concatTexts (eventTexts ev) := by
  rcases hc : ev.content with _ | c
  · simp [eventFold, eventTexts, hc, concatTexts, String.append_empty]
  · simp only [eventFold, eventTexts, hc]
    by_cases hp : c.parts.isEmpty
    · have hp' : c.parts = [] := by simpa using hp
      simp [hp, hp', concatTexts, String.append_empty]
    · simp only [hp, if_false]
      exact partsFold_eq c.parts a

theorem foldl_eventFold_eq (events : List Event) (a : String) :
    events.foldl eventFold a = a ++ concatTexts (textFragments events) := by
  induction events generalizing a with
  | nil => simp [textFragments, concatTexts, String.append_empty]
  | cons ev evs ih =>
    simp only [List.foldl_cons, textFragments]
    rw [ih (eventFold a ev), eventFold_eq, concatTexts_append,
      String.append_assoc]

theorem accumulateText_eq (events : List Event) :
    accumulateText events = concatTexts (textFragments events) := by
  unfold accumulateText
  rw [foldl_eventFold_eq, String.empty_append]

/-! ## Claims about generate_vision_image -/

/-- C1, counterexample: when the image model returns zero images the tool
returns an error status, yet nothing at all is stored under the key
generated_image_url — in particular no empty-string marker. -/
theorem c1_counterexample_no_empty_marker :
    (generate_vision_image zeroImagesEnv "a vision" emptyState).1.status = "error" ∧
    (generate_vision_image zeroImagesEnv "a vision" emptyState).2.1
        "generated_image_url" ≠ some "" := by
  decide

/-- C1, amended: generate_vision_image writes the resulting public URL
under the fixed key generated_image_url only on success; on any failure
(zero images returned or a caught exception) it leaves that entry
untouched — no empty-string marker is stored — and signals the failure
through the returned error-status value instead. -/
theorem c1_state_key_written_only_on_success (env : VisionEnv) (d : String)
    (s : ToolState) :
    ((generate_vision_image env d s).1.status = "success" →
      (generate_vision_image env d s).2.1 "generated_image_url" =
        some (publicUrlOf env)) ∧
    ((generate_vision_image env d s).1.status = "error" →
      (generate_vision_image env d s).2.1 "generated_image_url" =
        s "generated_image_url") := by
  constructor
  · intro h
    rw [gvi_success_eq env d s h]
    simp [stateSet]
  · intro h
    rw [gvi_error_state env d s h]

/-- C1 at concrete inputs: the all-success run stores the constructed URL
under the key, and the zero-images run leaves the key untouched. -/
theorem c1_witness :
    (generate_vision_image okVisionEnv "a vision" emptyState).2.1
        "generated_image_url" = some (publicUrlOf okVisionEnv) ∧
    (generate_vision_image zeroImagesEnv "a vision" emptyState).2.1
        "generated_image_url" = emptyState "generated_image_url" :=
  ⟨(c1_state_key_written_only_on_success okVisionEnv "a vision" emptyState).1 rfl,
   (c1_state_key_written_only_on_success zeroImagesEnv "a vision" emptyState).2 rfl⟩

/-- C2, counterexample: a fully successful concrete run succeeds without
ever attempting a make-public operation, refuting that the upload path
attempts one (and hence that a fallback on its failure exists). -/
theorem c2_counterexample_no_make_public_attempt :
    (generate_vision_image okVisionEnv "a vision" emptyState).1.status = "success" ∧
    GcsOp.makePublic ∉
      (generate_vision_image okVisionEnv "a vision" emptyState).2.2 := by
  decide

/-- C2, amended: the upload path never attempts a make-public operation;
it unconditionally constructs the canonical deterministic URL from the
bucket name and the object name and, whenever the call succeeds, returns
exactly that URL with no error. -/
theorem c2_url_constructed_without_make_public (env : VisionEnv) (d : String)
    (s : ToolState) :
    GcsOp.makePublic ∉ (generate_vision_image env d s).2.2 ∧
    ((generate_vision_image env d s).1.status = "success" →
      (generate_vision_image env d s).1.url =
        some ("https://storage.googleapis.com/" ++ VISION_BUCKET_NAME ++ "/" ++
          blobNameOf env) ∧
      (generate_vision_image env d s).1.message = none) := by
  refine ⟨gvi_no_makePublic env d s, fun h => ?_⟩
  rw [gvi_success_eq env d s h]
  exact ⟨rfl, rfl⟩

/-- C2 at a concrete input: the successful run returns the canonical URL
and its trace holds no make-public step. -/
theorem c2_witness :
    GcsOp.makePublic ∉
      (generate_vision_image okVisionEnv "a vision" emptyState).2.2 ∧
    (generate_vision_image okVisionEnv "a vision" emptyState).1.url =
      some ("https://storage.googleapis.com/" ++ VISION_BUCKET_NAME ++ "/" ++
        blobNameOf okVisionEnv) :=
  ⟨(c2_url_constructed_without_make_public okVisionEnv "a vision" emptyState).1,
   ((c2_url_constructed_without_make_public okVisionEnv "a vision" emptyState).2
      rfl).1⟩

/-- C6: failure of the external image call and a zero-image result are
both mapped to an explicit error-status return value, and every run of
generate_vision_image returns a status dict (success or error) — no
exception from the model call, the upload or the state write escapes. -/
theorem c6_errors_become_status (env : VisionEnv) (d : String) (s : ToolState) :
    ((generate_vision_image env d s).1.status = "success" ∨
     (generate_vision_image env d s).1.status = "error") ∧
    (∀ e, env.generateImages = Except.error e →
      (generate_vision_image env d s).1.status = "error") ∧
    (env.generateImages = Except.ok [] →
      (generate_vision_image env d s).1.status = "error") := by
  refine ⟨gvi_status_total env d s, ?_, ?_⟩
  · intro e he
    obtain ⟨fp, gi, sc, up, sw, uid⟩ := env
    have he' : gi = Except.error e := he
    subst he'
    rcases fp with e2 | u
    · rfl
    · rfl
  · intro he
    obtain ⟨fp, gi, sc, up, sw, uid⟩ := env
    have he' : gi = Except.ok [] := he
    subst he'
    rcases fp with e2 | u
    · rfl
    · rfl

/-- C6 at concrete inputs: a raising image call and a zero-image result
both come back as error-status values. -/
theorem c6_witness :
    (generate_vision_image genFailEnv "a vision" emptyState).1.status = "error" ∧
    (generate_vision_image zeroImagesEnv "a vision" emptyState).1.status =
      "error" :=
  ⟨(c6_errors_become_status genFailEnv "a vision" emptyState).2.1
      "image model unavailable" rfl,
   (c6_errors_become_status zeroImagesEnv "a vision" emptyState).2.2 rfl⟩

/-- C10: whenever generate_vision_image returns an error status the shared
session state is left exactly as it was; the key generated_image_url is
written only on the success path, whose operation trace places the state
write after the completed upload. -/
theorem c10_error_leaves_state_unchanged (env : VisionEnv) (d : String)
    (s : ToolState) :
    ((generate_vision_image env d s).1.status = "error" →
      (generate_vision_image env d s).2.1 = s) ∧
    ((generate_vision_image env d s).1.status = "success" →
      (generate_vision_image env d s).2.1 =
        stateSet s "generated_image_url" (publicUrlOf env) ∧
      (generate_vision_image env d s).2.2 =
        [GcsOp.loadModel, GcsOp.generateImages, GcsOp.clientInit,
         GcsOp.uploadBlob, GcsOp.stateWrite]) := by
  refine ⟨gvi_error_state env d s, fun h => ?_⟩
  rw [gvi_success_eq env d s h]
  exact ⟨rfl, rfl⟩

/-! ## Claims about initialize_gcs -/

/-- A fully successful run with the bucket present mutates nothing and
raises nothing. -/
theorem initialize_gcs_run_exists_ok (loc : String) (w : GcsWorld)
    (h : bucketExists w VISION_BUCKET_NAME = true) :
    initialize_gcs_run loc okGcsEnv w = (w, none) := by
  simp [initialize_gcs_run, okGcsEnv, h]

/-- A fully successful run with the bucket absent creates the bucket in
the given region and records the 7-day deletion rule, raising nothing. -/
theorem initialize_gcs_run_absent_ok (loc : String) (w : GcsWorld)
    (h : bucketExists w VISION_BUCKET_NAME = false) :
    initialize_gcs_run loc okGcsEnv w =
      ({ buckets := (VISION_BUCKET_NAME, loc) :: w.buckets,
         lifecycleRules := (VISION_BUCKET_NAME, 7) :: w.lifecycleRules },
       none) := by
  simp [initialize_gcs_run, okGcsEnv, h]

/-- C3: initialize_gcs is idempotent — with the bucket already present no
mutation happens under any environment; with the bucket absent a
successful run creates it in the configured region and applies the
7-day deletion rule; and a repeated successful call changes nothing
further and raises no exception inside its try block. -/
theorem c3_initialize_gcs_idempotent (loc : String) (env : GcsEnv)
    (w : GcsWorld) :
    (bucketExists w VISION_BUCKET_NAME = true →
      initialize_gcs loc env w = w) ∧
    (bucketExists w VISION_BUCKET_NAME = false →
      initialize_gcs loc okGcsEnv w =
        { buckets := (VISION_BUCKET_NAME, loc) :: w.buckets,
          lifecycleRules := (VISION_BUCKET_NAME, 7) :: w.lifecycleRules }) ∧
    (initialize_gcs loc okGcsEnv (initialize_gcs loc okGcsEnv w) =
        initialize_gcs loc okGcsEnv w ∧
      (initialize_gcs_run loc okGcsEnv (initialize_gcs loc okGcsEnv w)).2 =
        none) := by
  refine ⟨?_, ?_, ?_⟩
  · intro h
    obtain ⟨ci, ec, cf, pf⟩ := env
    rcases ci with _ | e
    · rcases ec with _ | e
      · simp [initialize_gcs, initialize_gcs_run, h]
      · rfl
    · rfl
  · intro h
    unfold initialize_gcs
    rw [initialize_gcs_run_absent_ok loc w h]
  · by_cases h : bucketExists w VISION_BUCKET_NAME
    · have h1 : initialize_gcs loc okGcsEnv w = w := by
        unfold initialize_gcs
        rw [initialize_gcs_run_exists_ok loc w h]
      rw [h1]
      constructor
      · unfold initialize_gcs
        rw [initialize_gcs_run_exists_ok loc w h]
      · rw [initialize_gcs_run_exists_ok loc w h]
    · have h' : bucketExists w VISION_BUCKET_NAME = false := by
        simpa using h
      have hw1 : initialize_gcs loc okGcsEnv w =
          { buckets := (VISION_BUCKET_NAME, loc) :: w.buckets,
            lifecycleRules := (VISION_BUCKET_NAME, 7) :: w.lifecycleRules } := by
        unfold initialize_gcs
        rw [initialize_gcs_run_absent_ok loc w h']
      have hb : bucketExists
          ({ buckets := (VISION_BUCKET_NAME, loc) :: w.buckets,
             lifecycleRules := (VISION_BUCKET_NAME, 7) :: w.lifecycleRules } :
            GcsWorld) VISION_BUCKET_NAME = true := by
        simp [bucketExists]
      constructor
      · rw [hw1]
        unfold initialize_gcs
        rw [initialize_gcs_run_exists_ok loc _ hb]
      · rw [hw1, initialize_gcs_run_exists_ok loc _ hb]

/-- C3 at concrete inputs: starting from a world with no buckets, the
first successful call creates the bucket with its rule and the second
call is a no-op that raises nothing. -/
theorem c3_witness :
    initialize_gcs "us-central1" okGcsEnv emptyGcsWorld =
      { buckets := [(VISION_BUCKET_NAME, "us-central1")],
        lifecycleRules := [(VISION_BUCKET_NAME, 7)] } ∧
    initialize_gcs "us-central1" okGcsEnv
        (initialize_gcs "us-central1" okGcsEnv emptyGcsWorld) =
      initialize_gcs "us-central1" okGcsEnv emptyGcsWorld :=
  ⟨(c3_initialize_gcs_idempotent "us-central1" okGcsEnv emptyGcsWorld).2.1 rfl,
   (c3_initialize_gcs_idempotent "us-central1" okGcsEnv emptyGcsWorld).2.2.1⟩

/-- C7: whatever exception the try block of initialize_gcs raises, the
function returns the partially mutated world normally; a lifecycle-patch
failure after creation still leaves the created bucket in place; and an
upload failure in generate_vision_image surfaces only as a returned
error status with the state untouched, never as an exception. -/
theorem c7_provisioning_failures_swallowed (loc : String) (env : GcsEnv)
    (w : GcsWorld) :
    (∀ e, (initialize_gcs_run loc env w).2 = some e →
      initialize_gcs loc env w = (initialize_gcs_run loc env w).1) ∧
    (env.clientInitFails = none → env.existsCheckFails = none →
      env.createFails = none → (∃ e, env.patchFails = some e) →
      bucketExists w VISION_BUCKET_NAME = false →
      bucketExists (initialize_gcs loc env w) VISION_BUCKET_NAME = true) ∧
    (∀ (venv : VisionEnv) (d : String) (s : ToolState) (e : String)
        (img : ImageBytes) (rest : List ImageBytes),
      venv.fromPretrained = Except.ok () →
      venv.generateImages = Except.ok (img :: rest) →
      venv.storageClient = Except.ok () →
      venv.uploadFromString = Except.error e →
      generate_vision_image venv d s =
        (errResp e, s,
         [GcsOp.loadModel, GcsOp.generateImages, GcsOp.clientInit,
          GcsOp.uploadBlob])) := by
  refine ⟨fun e _ => rfl, ?_, ?_⟩
  · intro h1 h2 h3 ⟨e, h4⟩ h5
    obtain ⟨ci, ec, cf, pf⟩ := env
    have h1' : ci = none := h1
    have h2' : ec = none := h2
    have h3' : cf = none := h3
    have h4' : pf = some e := h4
    subst h1'; subst h2'; subst h3'; subst h4'
    simp only [initialize_gcs, initialize_gcs_run, h5]
    simp [bucketExists]
  · intro venv d s e img rest hfp hgi hsc hup
    obtain ⟨fp, gi, sc, up, sw, uid⟩ := venv
    have hfp' : fp = Except.ok () := hfp
    have hgi' : gi = Except.ok (img :: rest) := hgi
    have hsc' : sc = Except.ok () := hsc
    have hup' : up = Except.error e := hup
    subst hfp'; subst hgi'; subst hsc'; subst hup'
    rfl

/-- C7 at concrete inputs: a failing lifecycle patch still returns a
world in which the bucket was created, and a failing upload produces an
error-status dict with the state unchanged. -/
theorem c7_witness :
    bucketExists
        (initialize_gcs "us-central1" patchFailGcsEnv emptyGcsWorld)
        VISION_BUCKET_NAME = true ∧
    generate_vision_image uploadFailEnv "a vision" emptyState =
      (errResp "upload failed", emptyState,
       [GcsOp.loadModel, GcsOp.generateImages, GcsOp.clientInit,
        GcsOp.uploadBlob]) :=
  ⟨(c7_provisioning_failures_swallowed "us-central1" patchFailGcsEnv
      emptyGcsWorld).2.1 rfl rfl rfl
      ⟨"policy denies lifecycle patch", rfl⟩ rfl,
   (c7_provisioning_failures_swallowed "us-central1" patchFailGcsEnv
      emptyGcsWorld).2.2 uploadFailEnv "a vision" emptyState "upload failed"
      "png-bytes" [] rfl rfl rfl rfl⟩

/-- C10 at concrete inputs: the zero-images run hands back the untouched
state and the all-success run stores exactly the constructed URL. -/
theorem c10_witness :
    (generate_vision_image zeroImagesEnv "a vision" emptyState).2.1 =
      emptyState ∧
    (generate_vision_image okVisionEnv "a vision" emptyState).2.1 =
      stateSet emptyState "generated_image_url" (publicUrlOf okVisionEnv) :=
  ⟨(c10_error_leaves_state_unchanged zeroImagesEnv "a vision" emptyState).1 rfl,
   ((c10_error_leaves_state_unchanged okVisionEnv "a vision" emptyState).2
      rfl).1⟩

/-! ## Claims about the synchronous query bridge -/

/-- C4: any exception raised inside the asynchronous run is captured on
the worker and re-raised to the synchronous caller of query. -/
theorem c4_worker_exception_reraised (env : QueryEnv) (sessions : SessionWorld)
    (input : String) (e : String)
    (h : (run_async env sessions).1 = Except.error e) :
    (query env sessions input).1 = Except.error e := by
  obtain ⟨sid, evs, re⟩ := env
  rcases re with _ | e'
  · exact absurd h (by simp [run_async])
  · have h' : e' = e := by simpa [run_async] using h
    subst h'
    rfl

/-- C4 at a concrete input: a crashing asynchronous run surfaces as the
same exception from query. -/
theorem c4_witness :
    (query errQueryEnv [] "I seek a vision").1 =
      Except.error "pipeline crashed" :=
  c4_worker_exception_reraised errQueryEnv [] "I seek a vision"
    "pipeline crashed" rfl

/-- C5: when the asynchronous run finishes normally, query returns the
concatenation, in emission order, of every textual fragment of every
content parts of every event; events and parts carrying no text contribute
nothing. -/
theorem c5_query_concatenates_text (env : QueryEnv) (sessions : SessionWorld)
    (input : String) (h : env.runError = none) :
    (query env sessions input).1 =
      Except.ok (concatTexts (textFragments env.events)) := by
  obtain ⟨sid, evs, re⟩ := env
  have h' : re = none := h
  subst h'
  have hq : (query ⟨sid, evs, none⟩ sessions input).1 =
      Except.ok (accumulateText evs) := rfl
  rw [hq, accumulateText_eq]

/-- C5 at a concrete input: a stream with a non-textual event, an empty
parts list, a part with no text and a part with empty text yields
exactly the concatenation of the remaining fragments. -/
theorem c5_witness :
    (query demoQueryEnv [] "I seek a vision").1 = Except.ok "Hello world" := by
  have h := c5_query_concatenates_text demoQueryEnv [] "I seek a vision" rfl
  rw [h]
  rfl

/-- C8: one session is created before the run and deleted on every exit
path — the trace starts with the session creation, ends with the session
deletion after all events, and the session world handed back never
contains the session of this invocation. -/
theorem c8_session_deleted_every_path (env : QueryEnv)
    (sessions : SessionWorld) (input : String) :
    (query env sessions input).2.1 =
      removeSession sessions default_user env.sessionId ∧
    (default_user, env.sessionId) ∉ (query env sessions input).2.1 ∧
    (query env sessions input).2.2 =
      BridgeOp.createSession default_user env.sessionId ::
        (env.events.map BridgeOp.processEvent ++
          [BridgeOp.deleteSession default_user env.sessionId]) := by
  obtain ⟨sid, evs, re⟩ := env
  have hs : (query ⟨sid, evs, re⟩ sessions input).2.1 =
      removeSession ((default_user, sid) :: sessions) default_user sid := by
    rcases re with _ | e
    · rfl
    · rfl
  have hr : removeSession ((default_user, sid) :: sessions) default_user sid =
      removeSession sessions default_user sid := by
    simp [removeSession]
  refine ⟨by rw [hs, hr], ?_, ?_⟩
  · rw [hs, hr]
    simp [removeSession, List.mem_filter]
  · rcases re with _ | e
    · rfl
    · rfl

/-! ## Claims about register_operations -/

theorem opsSet_same (d : OpsDict) (k : String) (v : List String) :
    opsSet d k v k = some v := by
  simp [opsSet]

theorem opsSet_other (d : OpsDict) (k k' : String) (v : List String)
    (h : k' ≠ k) : opsSet d k v k' = d k' := by
  simp [opsSet, h]

theorem opsDel_other (d : OpsDict) (k k' : String) (h : k' ≠ k) :
    opsDel d k k' = d k' := by
  simp [opsDel, h]

theorem delIf_other (d : OpsDict) (ka k : String) (h : k ≠ ka) :
    (if (d ka).isSome then opsDel d ka else d) k = d k := by
  by_cases hb : (d ka).isSome
  · rw [if_pos hb, opsDel_other _ _ _ h]
  · rw [if_neg hb]

theorem delIf_same (d : OpsDict) (ka : String) :
    (if (d ka).isSome then opsDel d ka else d) ka = none := by
  by_cases hb : (d ka).isSome
  · rw [if_pos hb]
    simp [opsDel]
  · rw [if_neg hb]
    simpa [Option.not_isSome_iff_eq_none] using hb

theorem ensureDefaultMode_isSome (ops : OpsDict) :
    ((ensureDefaultMode ops) "").isSome := by
  unfold ensureDefaultMode
  by_cases h : (ops "").isSome
  · rw [if_pos h]
    exact h
  · rw [if_neg h, opsSet_same]
    rfl

theorem ensureQueryRegistered_query (ops : OpsDict) (h : (ops "").isSome) :
    ((ensureQueryRegistered ops) "").isSome ∧
    "query" ∈ ((ensureQueryRegistered ops) "").getD [] := by
  simp only [ensureQueryRegistered]
  by_cases hc : ((ops "").getD []).contains "query"
  · rw [if_pos hc]
    exact ⟨h, by simpa using hc⟩
  · rw [if_neg hc, opsSet_same]
    constructor
    · rfl
    · simp

theorem dropAsyncModes_keeps_other_modes (ops : OpsDict) (k : String)
    (h1 : k ≠ "async") (h2 : k ≠ "async_stream") :
    (dropAsyncModes ops) k = ops k := by
  simp only [dropAsyncModes]
  rw [delIf_other _ "async_stream" _ h2, delIf_other _ "async" _ h1]

theorem dropAsyncModes_async (ops : OpsDict) :
    (dropAsyncModes ops) "async" = none := by
  simp only [dropAsyncModes]
  rw [delIf_other _ "async_stream" "async" (by decide)]
  exact delIf_same ops "async"

theorem dropAsyncModes_async_stream (ops : OpsDict) :
    (dropAsyncModes ops) "async_stream" = none := by
  simp only [dropAsyncModes]
  exact delIf_same _ "async_stream"

theorem ensureDefaultMode_other (ops : OpsDict) (k : String) (h : k ≠ "") :
    (ensureDefaultMode ops) k = ops k := by
  unfold ensureDefaultMode
  by_cases hs : (ops "").isSome
  · rw [if_pos hs]
  · rw [if_neg hs, opsSet_other _ _ _ _ h]

theorem ensureQueryRegistered_other (ops : OpsDict) (k : String)
    (h : k ≠ "") : (ensureQueryRegistered ops) k = ops k := by
  simp only [ensureQueryRegistered]
  by_cases hc : ((ops "").getD []).contains "query"
  · rw [if_pos hc]
  · rw [if_neg hc, opsSet_other _ _ _ _ h]

/-- C9, counterexample: on a superclass dict that also advertises a
streaming mode named stream, register_operations leaves that mode in the
returned registration — so not every asynchronous/streaming entry-point
mode is excluded. -/
theorem c9_counterexample_stream_mode_not_excluded :
    (register_operations superOpsDict) "stream" =
      some ["stream_query", "streaming_agent_run_with_events"] := by
  decide

/-- C9, amended: after register_operations, the synchronous operation
"query" is registered under the default mode "", exactly the two modes
"async" and "async_stream" are removed from the returned registration,
and every other mode of the superclass dict — including any further
streaming mode such as stream — is passed through unchanged. -/
theorem c9_query_registered_async_excluded (ops : OpsDict) :
    ((register_operations ops) "").isSome ∧
    "query" ∈ ((register_operations ops) "").getD [] ∧
    (register_operations ops) "async" = none ∧
    (register_operations ops) "async_stream" = none ∧
    (∀ k, k ≠ "" → k ≠ "async" → k ≠ "async_stream" →
      (register_operations ops) k = ops k) := by
  have h0 := ensureDefaultMode_isSome ops
  have h1 := ensureQueryRegistered_query (ensureDefaultMode ops) h0
  have hd : (register_operations ops) "" =
      (ensureQueryRegistered (ensureDefaultMode ops)) "" := by
    unfold register_operations
    exact dropAsyncModes_keeps_other_modes _ "" (by decide) (by decide)
  refine ⟨?_, ?_, ?_, ?_, ?_⟩
  · rw [hd]
    exact h1.1
  · rw [hd]
    exact h1.2
  · unfold register_operations
    exact dropAsyncModes_async _
  · unfold register_operations
    exact dropAsyncModes_async_stream _
  · intro k h0' h1' h2'
    unfold register_operations
    rw [dropAsyncModes_keeps_other_modes _ _ h1' h2',
      ensureQueryRegistered_other _ _ h0', ensureDefaultMode_other _ _ h0']

/-- C9 at a concrete input: on the superclass dict, query lands under the
default mode, async is gone and the stream mode passes through. -/
theorem c9_witness :
    "query" ∈ ((register_operations superOpsDict) "").getD [] ∧
    (register_operations superOpsDict) "async" = none ∧
    (register_operations superOpsDict) "stream" = superOpsDict "stream" :=
  ⟨(c9_query_registered_async_excluded superOpsDict).2.1,
   (c9_query_registered_async_excluded superOpsDict).2.2.1,
   (c9_query_registered_async_excluded superOpsDict).2.2.2.2 "stream"
     (by decide) (by decide) (by decide)⟩

end VisionsVertex
